import Mathlib

/-!
Shallow embedding of the `legendarym4x/dep` contact-management backend.

The database is modelled as an in-memory list of rows; each SQLAlchemy query
becomes a `List.filter` over that list, `scalar_one_or_none` keeps its SQL
semantics (zero rows → none, one row → the row, several rows → an error), and
every route/repository operation returns its result together with the new
database state.  Ambient effects of the source (`datetime.today()`, the JWT
encoder/decoder, the password hasher) are passed in as explicit arguments.
-/

/-- Calendar date, the model of Python `datetime.date` / the SQL `Date` column. -/
structure Date where
  year : Nat
  month : Nat
  day : Nat
deriving DecidableEq

/-- Gregorian leap-year rule used by Python's `datetime` arithmetic. -/
def isLeap (y : Nat) : Bool :=
  (y % 4 == 0 && y % 100 != 0) || y % 400 == 0

def daysInMonth (y m : Nat) : Nat :=
  if m == 2 then (if isLeap y then 29 else 28)
  else if m == 4 || m == 6 || m == 9 || m == 11 then 30
  else 31

def nextDay (d : Date) : Date :=
  if d.day < daysInMonth d.year d.month then { d with day := d.day + 1 }
  else if d.month < 12 then { d with month := d.month + 1, day := 1 }
  else { year := d.year + 1, month := 1, day := 1 }

/-- `today + timedelta(days)` from `get_contacts_with_birthdays`. -/
def addDays (d : Date) : Nat → Date
  | 0 => d
  | n + 1 => addDays (nextDay d) n

/-- Two-digit zero padding, as produced by `strftime`/`to_char` month and day fields. -/
def pad2 (n : Nat) : String :=
  if n < 10 then "0" ++ toString n else toString n

/-- `strftime('%m-%d')` on the Python side and `to_char(…, 'MM-DD')` on the SQL side. -/
def mmdd (d : Date) : String :=
  pad2 d.month ++ "-" ++ pad2 d.day

/-- Lexicographic comparison of character lists by code point: the text
collation under which the SQL `BETWEEN` on `MM-DD` strings is evaluated. -/
def charListLEb : List Char → List Char → Bool
  | [], _ => true
  | _ :: _, [] => false
  | a :: as, b :: bs =>
    if a.toNat < b.toNat then true
    else if b.toNat < a.toNat then false
    else charListLEb as bs

def strLEb (a b : String) : Bool :=
  charListLEb a.data b.data

/-- SQL `x BETWEEN lo AND hi` (inclusive on both ends). -/
def betweenStr (x lo hi : String) : Bool :=
  strLEb lo x && strLEb x hi

/-- `users` row of `src/entity/models.py`.  The `password_reset_token` field
does not correspond to a declared column: `src/entity/models.py` has no such
column, so the assignment made by the repository `update_reset_token`
(asserted in tests/test_unit_repository_users.py) lives only on the in-memory
instance and is never database-persisted, and a user loaded by a later
request lacks the attribute (reading it at src/routes/auth.py line 219 would
raise `AttributeError`).  The field here models that in-memory attribute
within a single session, defaulting to `none` for a freshly loaded user. -/
structure User where
  id : Nat
  username : String
  email : String
  password : String
  avatar : Option String := none
  refresh_token : Option String := none
  password_reset_token : Option String := none
  confirmed : Bool := false
deriving DecidableEq

/-- `contacts` row of `src/entity/models.py` (the database-managed
`created_at`/`updated_at` timestamps are outside the model). -/
structure Contact where
  id : Nat
  name : String
  surname : String
  email : String
  phone : String
  birthday : Date
  user_id : Option Nat
deriving DecidableEq

/-- `ContactModel` of `src/schemas/contact.py`. -/
structure ContactModel where
  name : String
  surname : String
  email : String
  phone : String
  birthday : Date
deriving DecidableEq

/-- `ResetPassword` of `src/schemas/user.py`. -/
structure ResetPassword where
  reset_password_token : String
  new_password : String
  confirm_password : String
deriving DecidableEq

/-- `TokenModel` of `src/schemas/user.py`. -/
structure TokenModel where
  access_token : String
  refresh_token : String
  token_type : String := "bearer"
deriving DecidableEq

/-- `fastapi.HTTPException` statuses raised by the routes. -/
inductive HTTPError where
  | unauthorized (detail : String)
  | conflict (detail : String)
  | badRequest (detail : String)
  | internal (detail : String)
deriving DecidableEq

/-- SQLAlchemy `Result.scalar_one_or_none`: `none` on zero rows, the row on
exactly one, an exception on several. -/
def scalar_one_or_none : List α → Except String (Option α)
  | [] => Except.ok none
  | [a] => Except.ok (some a)
  | _ => Except.error "Multiple rows were found when one or none was required"

/-- Rows matched by `filter_by(id=contact_id, user=user)`: the relationship
filter compares the foreign key `user_id` to `user.id`. -/
def contactQuery (contact_id : Nat) (user : User) (db : List Contact) : List Contact :=
  db.filter (fun c => c.id == contact_id && c.user_id == some user.id)

/-- `get_contacts` of `src/repository/contacts.py`. -/
def get_contacts (skip limit : Nat) (db : List Contact) (user : User) : List Contact :=
  (((db.filter (fun c => c.user_id == some user.id)).drop skip).take limit)

/-- `get_contact_by_id` of `src/repository/contacts.py`. -/
def get_contact_by_id (contact_id : Nat) (db : List Contact) (user : User) :
    Except String (Option Contact) :=
  scalar_one_or_none (contactQuery contact_id user db)

/-- Python truthiness of an optional string filter (`if name:`): `None` and the
empty string both mean "no filter supplied". -/
def truthy : Option String → Bool
  | none => false
  | some s => !s.isEmpty

def listStartsWith : List Char → List Char → Bool
  | [], _ => true
  | _ :: _, [] => false
  | a :: as, b :: bs => a == b && listStartsWith as bs

def listSubstrB (pat : List Char) : List Char → Bool
  | [] => pat.isEmpty
  | c :: rest => listStartsWith pat (c :: rest) || listSubstrB pat rest

/-- `Contact.field.ilike(f"%{pat}%")`: case-insensitive substring match. -/
def ilikeSub (field pat : String) : Bool :=
  listSubstrB pat.toLower.data field.toLower.data

/-- `search_contacts` of `src/repository/contacts.py`.  The builder appends
`WHERE` clauses after `offset`/`limit`, but in the emitted SQL the `WHERE`
applies before pagination. -/
def search_contacts (name surname email : Option String) (limit offset : Nat)
    (db : List Contact) (user : User) : List Contact :=
  let query := fun c => c.user_id == some user.id
  let query := if truthy name then
      (fun c => query c && ilikeSub c.name (name.getD "")) else query
  let query := if truthy surname then
      (fun c => query c && ilikeSub c.surname (surname.getD "")) else query
  let query := if truthy email then
      (fun c => query c && ilikeSub c.email (email.getD "")) else query
  (((db.filter query).drop offset).take limit)

/-- `get_contacts_with_birthdays` of `src/repository/contacts.py`: filters on
`to_char(birthday, 'MM-DD') BETWEEN start AND end` where `start`/`end` are the
`%m-%d` renderings of `today` and `today + timedelta(days)`. -/
def get_contacts_with_birthdays (days : Nat) (today : Date) (db : List Contact)
    (user : User) : List Contact :=
  let start := mmdd today
  let stop := mmdd (addDays today days)
  db.filter (fun c => betweenStr (mmdd c.birthday) start stop && c.user_id == some user.id)

/-- `update_contact` of `src/repository/contacts.py`: fetches by
`(id, user)`, mutates the fetched row's five payload fields, commits. -/
def update_contact (contact_id : Nat) (body : ContactModel) (db : List Contact)
    (user : User) : Except String (Option Contact × List Contact) :=
  match scalar_one_or_none (contactQuery contact_id user db) with
  | Except.error e => Except.error e
  | Except.ok none => Except.ok (none, db)
  | Except.ok (some contact) =>
    let contact' : Contact :=
      { contact with
        name := body.name
        surname := body.surname
        email := body.email
        phone := body.phone
        birthday := body.birthday }
    Except.ok (some contact', db.map (fun x => if x = contact then contact' else x))

/-- `delete_contact` of `src/repository/contacts.py`. -/
def delete_contact (contact_id : Nat) (db : List Contact) (user : User) :
    Except String (Option Contact × List Contact) :=
  match scalar_one_or_none (contactQuery contact_id user db) with
  | Except.error e => Except.error e
  | Except.ok none => Except.ok (none, db)
  | Except.ok (some contact) => Except.ok (some contact, db.erase contact)

/-! ### Users repository (`src/repository/users.py`)

The file `src/repository/users.py` is not among the sources; only its unit
tests (`tests/test_unit_repository_users.py`) and its callers in
`src/routes/auth.py` are.  Its operations are modelled from the spec below. -/

/-- Modelled from the spec: `get_user_by_email` of the missing
`src/repository/users.py`.  The spec makes `email` globally unique and the
control flow resolves a subject email to the stored user record, so the lookup
returns the (unique) user with the given email, or none. -/
def get_user_by_email (email : String) (db : List User) : Option User :=
  db.find? (fun u => u.email == email)

/-- Modelled from the spec: `update_token` of the missing
`src/repository/users.py` — "persistence of the refresh … token against the
user record"; sets `refresh_token` on the given user's record and commits. -/
def update_token (user : User) (token : Option String) (db : List User) : List User :=
  db.map (fun u => if u.id = user.id then { u with refresh_token := token } else u)

/-- Modelled from the spec: repository `confirmed_email` of the missing
`src/repository/users.py` — "successful confirmation sets `confirmed=true`";
flips the flag on the record resolved by email and commits. -/
def users_confirmed_email (email : String) (db : List User) : List User :=
  db.map (fun u => if u.email = email then { u with confirmed := true } else u)

/-- Modelled from the spec: `update_password` of the missing
`src/repository/users.py` — "on success updates password hash"; stores the
(already hashed) password on the given user's record and commits. -/
def users_update_password (user : User) (hashed : String) (db : List User) : List User :=
  db.map (fun u => if u.id = user.id then { u with password := hashed } else u)

/-- Modelled from the spec: `update_reset_token` of the missing
`src/repository/users.py` — sets (or clears) `password_reset_token` on the
given user instance and commits, per its unit test.  Since
`src/entity/models.py` declares no such column, the commit persists nothing
for this attribute; the model keeps it on the in-memory row. -/
def update_reset_token (user : User) (token : Option String) (db : List User) : List User :=
  db.map (fun u => if u.id = user.id then { u with password_reset_token := token } else u)

/-! ### Auth routes (`src/routes/auth.py`)

The token service (`src/services/auth.py`) is not among the sources; the spec
says it purely mints/verifies signed claims, so its operations are passed to
each route as explicit function arguments (`decode`, `createAccess`,
`createRefresh`, `getEmail`, `verify`, `hash`).  Each route returns the HTTP
outcome together with the user table after the request. -/

/-- `login` of `src/routes/auth.py` (POST /auth/login). -/
def login (verify : String → String → Bool) (createAccess createRefresh : String → String)
    (username password : String) (db : List User) :
    Except HTTPError TokenModel × List User :=
  match get_user_by_email username db with
  | none => (Except.error (HTTPError.unauthorized "Invalid email"), db)
  | some user =>
    if !user.confirmed then
      (Except.error (HTTPError.unauthorized "Email not confirmed"), db)
    else if !verify password user.password then
      (Except.error (HTTPError.unauthorized "Invalid password"), db)
    else
      let access_token := createAccess user.email
      let new_refresh := createRefresh user.email
      (Except.ok { access_token := access_token, refresh_token := new_refresh,
                   token_type := "bearer" },
       update_token user (some new_refresh) db)

/-- `refresh_token` of `src/routes/auth.py` (GET /auth/refresh_token).  When
the decoded email resolves to no user the source dereferences `None`
(`user.refresh_token`), which raises; modelled as an internal error. -/
def refresh_token_route (decode : String → Except String String)
    (createAccess createRefresh : String → String) (token : String) (db : List User) :
    Except HTTPError TokenModel × List User :=
  match decode token with
  | Except.error e => (Except.error (HTTPError.unauthorized e), db)
  | Except.ok email =>
    match get_user_by_email email db with
    | none => (Except.error (HTTPError.internal "AttributeError: NoneType"), db)
    | some user =>
      if user.refresh_token ≠ some token then
        (Except.error (HTTPError.unauthorized "Invalid refresh token"),
         update_token user none db)
      else
        let access_token := createAccess email
        let new_refresh := createRefresh email
        (Except.ok { access_token := access_token, refresh_token := new_refresh,
                     token_type := "bearer" },
         update_token user (some new_refresh) db)

/-- `confirmed_email` of `src/routes/auth.py` (GET /auth/confirmed_email/{token}). -/
def confirmed_email_route (getEmail : String → Except String String) (token : String)
    (db : List User) : Except HTTPError String × List User :=
  match getEmail token with
  | Except.error e => (Except.error (HTTPError.unauthorized e), db)
  | Except.ok email =>
    match get_user_by_email email db with
    | none => (Except.error (HTTPError.badRequest "Verification error"), db)
    | some user =>
      if user.confirmed then ((Except.ok "Your email is already confirmed"), db)
      else ((Except.ok "Email confirmed"), users_confirmed_email email db)

/-- The POST /auth/reset_password route (`request_email` in
`src/routes/auth.py`).  Only dispatches a background email; the user table is
unchanged, so the model returns just the response message. -/
def reset_password_request (email : String) (db : List User) : String :=
  match get_user_by_email email db with
  | some _ => "Check your email for the next step."
  | none => "Your email is incorrect"

/-- `password_reset_confirm` of `src/routes/auth.py`
(GET /auth/reset_password/{token}): mints a fresh email token and assigns it
as the reset token on the loaded user instance (never database-persisted —
`src/entity/models.py` declares no such column).  A failed email lookup
dereferences `None` in the source; modelled as an internal error. -/
def password_reset_confirm (getEmail : String → Except String String)
    (createEmailToken : String → String) (token : String) (db : List User) :
    Except HTTPError String × List User :=
  match getEmail token with
  | Except.error e => (Except.error (HTTPError.unauthorized e), db)
  | Except.ok email =>
    match get_user_by_email email db with
    | none => (Except.error (HTTPError.internal "AttributeError: NoneType"), db)
    | some user =>
      let reset_password_token := createEmailToken user.email
      (Except.ok reset_password_token,
       update_reset_token user (some reset_password_token) db)

/-- `update_password` of `src/routes/auth.py` (POST /auth/set_new_password).
Source line 215 calls the async `get_email_from_token` WITHOUT `await` — the
same call is awaited at lines 106 and 195, and the e2e tests mock it as
async — so `email` is bound to a coroutine object instead of a string.  Line
216 then runs the user lookup with that coroutine as the bind value for
`users.email`, which the database driver rejects: every request raises there,
before the reset-token check (line 220), the password-field check (line 222)
and the repository writes (lines 226-227), all of which are unreachable.  The
`getEmail` and `hash` arguments are kept because the source names both, but
no result of either is ever consumed. -/
def update_password (getEmail : String → Except String String) (hash : String → String)
    (request : ResetPassword) (db : List User) : Except HTTPError String × List User :=
  (Except.error (HTTPError.internal
    "coroutine object bound as SQL parameter (missing await)"), db)

/-- `signup` of `src/routes/auth.py` (POST /auth/signup): rejects an existing
email, otherwise stores the user with the hashed password (`confirmed` starts
false per the column default; `create_user` itself is modelled from the spec —
`src/repository/users.py` is not among the sources). -/
def signup (hash : String → String) (newId : Nat) (username email password : String)
    (db : List User) : Except HTTPError User × List User :=
  match get_user_by_email email db with
  | some _ => (Except.error (HTTPError.conflict "Account already exists"), db)
  | none =>
    let new_user : User :=
      { id := newId, username := username, email := email, password := hash password }
    (Except.ok new_user, db ++ [new_user])

/-- The user and contacts used to evaluate the birthday query at the
year-boundary window. -/
def birthdayUser : User :=
  { id := 1, username := "ann", email := "a@x.com", password := "h" }

def janContact : Contact :=
  { id := 1, name := "Jan", surname := "Third", email := "jan@x.com",
    phone := "1", birthday := ⟨2000, 1, 3⟩, user_id := some 1 }

def dec20Contact : Contact :=
  { id := 2, name := "Dec", surname := "Twenty", email := "dec@x.com",
    phone := "2", birthday := ⟨1999, 12, 20⟩, user_id := some 1 }

/-- A one-user table for evaluating the reset-request route. -/
def resetReqDb : List User :=
  [{ id := 1, username := "ann", email := "a@x.com", password := "h" }]

/-- No row of the table has its `confirmed` flag cleared by a state
transition: positionally, a row that was confirmed is still confirmed. -/
def confirmedNeverCleared (db db' : List User) : Prop :=
  ∀ (i : Nat) (hi : i < db.length) (hi' : i < db'.length),
    (db.get ⟨i, hi⟩).confirmed = true → (db'.get ⟨i, hi'⟩).confirmed = true

/-! ### Helper lemmas -/

theorem scalar_one_or_none_ok_some {l : List α} {a : α}
    (h : scalar_one_or_none l = Except.ok (some a)) : l = [a] := by
  match l with
  | [] => simp [scalar_one_or_none] at h
  | [b] => simp [scalar_one_or_none] at h; simp [h]
  | _ :: _ :: _ => simp [scalar_one_or_none] at h

theorem contactQuery_nil_of_other_owner {contact_id : Nat} {db : List Contact}
    {ownerId : Nat} {requester : User}
    (hne : requester.id ≠ ownerId)
    (hown : ∀ c ∈ db, c.id = contact_id → c.user_id = some ownerId) :
    contactQuery contact_id requester db = [] := by
  apply List.filter_eq_nil_iff.mpr
  intro c hc hpc
  simp only [Bool.and_eq_true, beq_iff_eq] at hpc
  obtain ⟨hid, huid⟩ := hpc
  have := hown c hc hid
  rw [this] at huid
  exact hne (Option.some.inj huid).symm

/-! ### Claim theorems -/

/-- C1.  Ownership scoping: when every contact with id `C` is owned by `owner`
and the requester is a different user, `get_contact_by_id`, `update_contact`
and `delete_contact` all return the not-found sentinel `none` and leave the
contact table unchanged — a non-owner never sees or mutates the contact. -/
theorem contacts_ownership_scoping (contact_id : Nat) (db : List Contact)
    (owner requester : User) (body : ContactModel)
    (hne : requester.id ≠ owner.id)
    (hown : ∀ c ∈ db, c.id = contact_id → c.user_id = some owner.id) :
    get_contact_by_id contact_id db requester = Except.ok none ∧
    update_contact contact_id body db requester = Except.ok (none, db) ∧
    delete_contact contact_id db requester = Except.ok (none, db) := by
  have hq : contactQuery contact_id requester db = [] :=
    contactQuery_nil_of_other_owner hne hown
  refine ⟨?_, ?_, ?_⟩
  · simp [get_contact_by_id, hq, scalar_one_or_none]
  · simp [update_contact, hq, scalar_one_or_none]
  · simp [delete_contact, hq, scalar_one_or_none]

/-- Witness for C1 at a concrete table: a contact with id 7 owned by user 1 is
invisible and immutable to user 2. -/
theorem contacts_ownership_scoping_witness :
    ((2 : Nat) ≠ (1 : Nat)) ∧
    (get_contact_by_id 7
        [{ id := 7, name := "Bob", surname := "Smith", email := "bob@x.com",
           phone := "1", birthday := ⟨1990, 5, 1⟩, user_id := some 1 }]
        { id := 2, username := "eve", email := "e@x.com", password := "h" } =
      Except.ok none) := by
  refine ⟨by decide, ?_⟩
  have h := contacts_ownership_scoping 7
    [{ id := 7, name := "Bob", surname := "Smith", email := "bob@x.com",
       phone := "1", birthday := ⟨1990, 5, 1⟩, user_id := some 1 }]
    { id := 1, username := "ann", email := "a@x.com", password := "h" }
    { id := 2, username := "eve", email := "e@x.com", password := "h" }
    { name := "n", surname := "s", email := "m@x.com", phone := "2",
      birthday := ⟨1991, 6, 2⟩ }
    (by decide) (by decide)
  exact h.1

/-- C4.  Search with no name/surname/email filter supplied is the same query
as listing with identical pagination: `search_contacts none none none` equals
`get_contacts` at every table, user, offset and limit. -/
theorem search_no_filters_eq_get_contacts (limit offset : Nat) (db : List Contact)
    (user : User) :
    search_contacts none none none limit offset db user =
      get_contacts offset limit db user := rfl

/-- C2.  The claim fails on the code: called on Dec 30 with `days = 7` the
query builds the string interval `BETWEEN "12-30" AND "01-06"`, which is empty
under text ordering, so the Jan-3 birthday the claim (and the function's own
docstring) requires is excluded — the window does not wrap the year boundary.
The evaluation below shows the query returns no rows at that input. -/
theorem birthdays_window_does_not_wrap :
    get_contacts_with_birthdays 7 ⟨2025, 12, 30⟩ [janContact, dec20Contact]
      birthdayUser = [] ∧
    mmdd (⟨2025, 12, 30⟩ : Date) = "12-30" ∧
    mmdd (addDays ⟨2025, 12, 30⟩ 7) = "01-06" := by
  refine ⟨?_, by decide, by decide⟩
  decide

/-- C8 counterexample.  The claim says the response is the same whether or not
the email is registered; on the table holding only `a@x.com`, the request for
the registered address and the request for the unregistered `b@x.com` return
different messages. -/
theorem reset_request_responses_differ :
    reset_password_request "a@x.com" resetReqDb ≠
      reset_password_request "b@x.com" resetReqDb := by decide

/-- C8 amended.  The password-reset request reveals account existence: the
response is "Check your email for the next step." exactly when the email is
registered and "Your email is incorrect" otherwise, so the output is a
function of whether the email exists in the store. -/
theorem reset_request_reveals_existence (email : String) (db : List User) :
    reset_password_request email db =
      if (get_user_by_email email db).isSome then "Check your email for the next step."
      else "Your email is incorrect" := by
  unfold reset_password_request
  cases h : get_user_by_email email db <;> simp

theorem update_token_sets (w : User) (t : Option String) (db : List User) :
    ∀ u' ∈ update_token w t db, u'.id = w.id → u'.refresh_token = t := by
  intro u' hu' hid
  obtain ⟨x, hx, hfx⟩ := List.mem_map.mp hu'
  by_cases h : x.id = w.id
  · rw [← hfx]; simp [h]
  · rw [← hfx] at hid; simp [h] at hid

theorem get_user_by_email_update_token (email : String) (w : User) (t : Option String)
    (db : List User) :
    get_user_by_email email (update_token w t db) =
      (get_user_by_email email db).map
        (fun x => if x.id = w.id then { x with refresh_token := t } else x) := by
  induction db with
  | nil => rfl
  | cons u rest ih =>
    by_cases hid : u.id = w.id <;> by_cases he : u.email = email <;>
      simp [update_token, get_user_by_email, List.find?_cons, hid, he] <;>
      simpa [update_token, get_user_by_email] using ih

/-- C5.  Login requires a confirmed email: an unconfirmed user is rejected
with "Email not confirmed" whatever the password verifier says, and a token
pair is only ever issued when the user is confirmed and the password
verifies — in which case the refresh token is persisted. -/
theorem login_requires_confirmation (verify : String → String → Bool)
    (createAccess createRefresh : String → String) (username password : String)
    (db : List User) (u : User)
    (hfind : get_user_by_email username db = some u) :
    (u.confirmed = false →
      login verify createAccess createRefresh username password db =
        (Except.error (HTTPError.unauthorized "Email not confirmed"), db)) ∧
    (∀ out db',
      login verify createAccess createRefresh username password db =
        (Except.ok out, db') →
      u.confirmed = true ∧ verify password u.password = true ∧
      out = { access_token := createAccess u.email,
              refresh_token := createRefresh u.email, token_type := "bearer" } ∧
      db' = update_token u (some (createRefresh u.email)) db) := by
  constructor
  · intro hc
    simp [login, hfind, hc]
  · intro out db' h
    unfold login at h
    rw [hfind] at h
    by_cases hc : u.confirmed
    · by_cases hv : verify password u.password
      · simp only [hc, hv, Bool.not_true, Bool.false_eq_true, if_false,
          Prod.mk.injEq] at h
        exact ⟨hc, hv, (Except.ok.inj h.1).symm, h.2.symm⟩
      · simp [hc, hv] at h
    · simp [hc] at h

/-- Witness for C5: with one unconfirmed user and a verifier that accepts
everything, login still fails with "Email not confirmed". -/
theorem login_requires_confirmation_witness :
    get_user_by_email "a@x.com"
        [{ id := 1, username := "ann", email := "a@x.com", password := "h" }] =
      some { id := 1, username := "ann", email := "a@x.com", password := "h" } ∧
    login (fun _ _ => true) (fun e => "A" ++ e) (fun e => "R" ++ e) "a@x.com" "pw"
        [{ id := 1, username := "ann", email := "a@x.com", password := "h" }] =
      (Except.error (HTTPError.unauthorized "Email not confirmed"),
       [{ id := 1, username := "ann", email := "a@x.com", password := "h" }]) := by
  refine ⟨by rfl, ?_⟩
  exact (login_requires_confirmation (fun _ _ => true) (fun e => "A" ++ e)
    (fun e => "R" ++ e) "a@x.com" "pw"
    [{ id := 1, username := "ann", email := "a@x.com", password := "h" }]
    { id := 1, username := "ann", email := "a@x.com", password := "h" }
    (by rfl)).1 rfl

/-- C3.  Refresh-token rotation: when the presented token decodes to a user
whose persisted `refresh_token` differs from it, the route clears the stored
token and fails with the invalid-refresh-token error, and presenting the same
old token again still fails; when the persisted token matches exactly, the
route returns a fresh access/refresh pair and persists the new refresh
token. -/
theorem refresh_mismatch_clears_match_rotates
    (decode : String → Except String String)
    (createAccess createRefresh : String → String) (token : String)
    (db : List User) (email : String) (u : User)
    (hdec : decode token = Except.ok email)
    (hfind : get_user_by_email email db = some u) :
    (u.refresh_token ≠ some token →
      refresh_token_route decode createAccess createRefresh token db =
        (Except.error (HTTPError.unauthorized "Invalid refresh token"),
         update_token u none db) ∧
      (∀ u' ∈ update_token u none db, u'.id = u.id → u'.refresh_token = none) ∧
      (refresh_token_route decode createAccess createRefresh token
          (update_token u none db)).1 =
        Except.error (HTTPError.unauthorized "Invalid refresh token")) ∧
    (u.refresh_token = some token →
      refresh_token_route decode createAccess createRefresh token db =
        (Except.ok { access_token := createAccess email,
                     refresh_token := createRefresh email, token_type := "bearer" },
         update_token u (some (createRefresh email)) db) ∧
      (∀ u' ∈ update_token u (some (createRefresh email)) db, u'.id = u.id →
        u'.refresh_token = some (createRefresh email))) := by
  constructor
  · intro hmis
    refine ⟨?_, update_token_sets u none db, ?_⟩
    · simp [refresh_token_route, hdec, hfind, hmis]
    · have hfind' : get_user_by_email email (update_token u none db) =
          some { u with refresh_token := none } := by
        rw [get_user_by_email_update_token, hfind]
        simp
      simp [refresh_token_route, hdec, hfind']
  · intro hmatch
    exact ⟨by simp [refresh_token_route, hdec, hfind, hmatch],
      update_token_sets u (some (createRefresh email)) db⟩

/-- Witness for C3 at a concrete store: user 1 holds refresh token "old"; a
presented token "stale" that decodes to their email mismatches. -/
theorem refresh_mismatch_clears_match_rotates_witness :
    ((fun _ => (Except.ok "a@x.com" : Except String String)) "stale" =
      Except.ok "a@x.com") ∧
    (refresh_token_route (fun _ => Except.ok "a@x.com") (fun e => "A" ++ e)
        (fun e => "R" ++ e) "stale"
        [{ id := 1, username := "ann", email := "a@x.com", password := "h",
           refresh_token := some "old" }]).1 =
      Except.error (HTTPError.unauthorized "Invalid refresh token") := by
  refine ⟨rfl, ?_⟩
  have h := (refresh_mismatch_clears_match_rotates (fun _ => Except.ok "a@x.com")
    (fun e => "A" ++ e) (fun e => "R" ++ e) "stale"
    [{ id := 1, username := "ann", email := "a@x.com", password := "h",
       refresh_token := some "old" }] "a@x.com"
    { id := 1, username := "ann", email := "a@x.com", password := "h",
      refresh_token := some "old" }
    rfl rfl).1 (by decide)
  rw [h.1]

theorem confirmedNeverCleared_refl (db : List User) :
    confirmedNeverCleared db db := fun _ _ _ hc => hc

theorem confirmedNeverCleared_map (f : User → User) (db : List User)
    (h : ∀ x, x.confirmed = true → (f x).confirmed = true) :
    confirmedNeverCleared db (db.map f) := by
  intro i hi hi' hc
  simp only [List.get_eq_getElem, List.getElem_map]
  exact h _ hc

theorem confirmedNeverCleared_update_token (w : User) (t : Option String)
    (db : List User) : confirmedNeverCleared db (update_token w t db) := by
  apply confirmedNeverCleared_map
  intro x hx
  by_cases h : x.id = w.id <;> simp [h, hx]

theorem confirmedNeverCleared_confirm (email : String) (db : List User) :
    confirmedNeverCleared db (users_confirmed_email email db) := by
  apply confirmedNeverCleared_map
  intro x hx
  by_cases h : x.email = email <;> simp [h, hx]

theorem confirmedNeverCleared_update_password (w : User) (p : String)
    (db : List User) : confirmedNeverCleared db (users_update_password w p db) := by
  apply confirmedNeverCleared_map
  intro x hx
  by_cases h : x.id = w.id <;> simp [h, hx]

theorem confirmedNeverCleared_update_reset_token (w : User) (t : Option String)
    (db : List User) : confirmedNeverCleared db (update_reset_token w t db) := by
  apply confirmedNeverCleared_map
  intro x hx
  by_cases h : x.id = w.id <;> simp [h, hx]

theorem confirmedNeverCleared_trans {db1 db2 db3 : List User}
    (h12 : confirmedNeverCleared db1 db2) (h23 : confirmedNeverCleared db2 db3)
    (hlen : db2.length = db1.length) :
    confirmedNeverCleared db1 db3 := by
  intro i hi hi' hc
  have hi2 : i < db2.length := by omega
  exact h23 i hi2 hi' (h12 i hi hi2 hc)

theorem confirmedNeverCleared_append (db ext : List User) :
    confirmedNeverCleared db (db ++ ext) := by
  intro i hi hi' hc
  simp only [List.get_eq_getElem] at *
  rw [List.getElem_append_left hi]
  exact hc

theorem confirmedNeverCleared_login_route (verify : String → String → Bool)
    (createAccess createRefresh : String → String) (username password : String)
    (db : List User) :
    confirmedNeverCleared db (login verify createAccess createRefresh
      username password db).2 := by
  unfold login
  cases h : get_user_by_email username db with
  | none => exact confirmedNeverCleared_refl db
  | some u =>
    by_cases hc : u.confirmed <;> by_cases hv : verify password u.password <;>
      simp only [hc, hv, Bool.not_true, Bool.not_false, if_true, if_false] <;>
      first
        | exact confirmedNeverCleared_refl db
        | exact confirmedNeverCleared_update_token _ _ db

theorem confirmedNeverCleared_refresh_route (decode : String → Except String String)
    (createAccess createRefresh : String → String) (token : String) (db : List User) :
    confirmedNeverCleared db (refresh_token_route decode createAccess createRefresh
      token db).2 := by
  unfold refresh_token_route
  split
  · exact confirmedNeverCleared_refl db
  · split
    · exact confirmedNeverCleared_refl db
    · split
      · exact confirmedNeverCleared_update_token _ _ db
      · exact confirmedNeverCleared_update_token _ _ db

theorem confirmedNeverCleared_confirmed_route (getEmail : String → Except String String)
    (token : String) (db : List User) :
    confirmedNeverCleared db (confirmed_email_route getEmail token db).2 := by
  unfold confirmed_email_route
  split
  · exact confirmedNeverCleared_refl db
  · split
    · exact confirmedNeverCleared_refl db
    · split
      · exact confirmedNeverCleared_refl db
      · exact confirmedNeverCleared_confirm _ db

theorem confirmedNeverCleared_reset_confirm_route
    (getEmail : String → Except String String) (createEmailToken : String → String)
    (token : String) (db : List User) :
    confirmedNeverCleared db (password_reset_confirm getEmail createEmailToken
      token db).2 := by
  unfold password_reset_confirm
  split
  · exact confirmedNeverCleared_refl db
  · split
    · exact confirmedNeverCleared_refl db
    · exact confirmedNeverCleared_update_reset_token _ _ db

theorem confirmedNeverCleared_update_password_route
    (getEmail : String → Except String String) (hash : String → String)
    (request : ResetPassword) (db : List User) :
    confirmedNeverCleared db (update_password getEmail hash request db).2 :=
  confirmedNeverCleared_refl db

theorem confirmedNeverCleared_signup_route (hash : String → String) (newId : Nat)
    (username email password : String) (db : List User) :
    confirmedNeverCleared db (signup hash newId username email password db).2 := by
  unfold signup
  split
  · exact confirmedNeverCleared_refl db
  · exact confirmedNeverCleared_append db _

/-- C6.  Email confirmation is idempotent and one-way: confirming a user whose
flag is already true returns the "already confirmed" message with the table
untouched (no second side effect), and no modelled operation — signup, login,
refresh, confirmation, reset confirm or completion — ever clears a
row's `confirmed` flag. -/
theorem confirmed_email_idempotent_one_way
    (getEmail : String → Except String String) (token : String) (db : List User)
    (email : String) (u : User)
    (hget : getEmail token = Except.ok email)
    (hfind : get_user_by_email email db = some u)
    (hconf : u.confirmed = true) :
    confirmed_email_route getEmail token db =
      (Except.ok "Your email is already confirmed", db) ∧
    (∀ verify cA cR un pw,
      confirmedNeverCleared db (login verify cA cR un pw db).2) ∧
    (∀ decode cA cR tok,
      confirmedNeverCleared db (refresh_token_route decode cA cR tok db).2) ∧
    (∀ gE tok, confirmedNeverCleared db (confirmed_email_route gE tok db).2) ∧
    (∀ gE cE tok,
      confirmedNeverCleared db (password_reset_confirm gE cE tok db).2) ∧
    (∀ gE hsh req, confirmedNeverCleared db (update_password gE hsh req db).2) ∧
    (∀ hsh newId un em pw,
      confirmedNeverCleared db (signup hsh newId un em pw db).2) := by
  refine ⟨?_, fun v cA cR un pw => confirmedNeverCleared_login_route v cA cR un pw db,
    fun d cA cR t => confirmedNeverCleared_refresh_route d cA cR t db,
    fun gE t => confirmedNeverCleared_confirmed_route gE t db,
    fun gE cE t => confirmedNeverCleared_reset_confirm_route gE cE t db,
    fun gE h r => confirmedNeverCleared_update_password_route gE h r db,
    fun h nid un em pw => confirmedNeverCleared_signup_route h nid un em pw db⟩
  simp [confirmed_email_route, hget, hfind, hconf]

/-- Witness for C6: confirming the already-confirmed user `a@x.com` again
returns the message and leaves the table as it was. -/
theorem confirmed_email_idempotent_one_way_witness :
    confirmed_email_route (fun _ => Except.ok "a@x.com") "tok"
        [{ id := 1, username := "ann", email := "a@x.com", password := "h",
           confirmed := true }] =
      (Except.ok "Your email is already confirmed",
       [{ id := 1, username := "ann", email := "a@x.com", password := "h",
          confirmed := true }]) :=
  (confirmed_email_idempotent_one_way (fun _ => Except.ok "a@x.com") "tok"
    [{ id := 1, username := "ann", email := "a@x.com", password := "h",
       confirmed := true }] "a@x.com"
    { id := 1, username := "ann", email := "a@x.com", password := "h",
      confirmed := true }
    rfl rfl rfl).1

/-- C7.  The claim fails on the code: `update_password` never reaches the
reset-token comparison, the password-field comparison or the success path.
Source line 215 misses the `await` on the async `get_email_from_token`, so the
user lookup on line 216 binds a coroutine object into the SQL query and every
request raises before any check or write (and `src/entity/models.py` declares
no `password_reset_token` column, so the compared token is also never
persisted).  Evaluated at the claim's own success scenario — matching stored
token, equal password fields — the route returns the internal error and the
stored hash and token are unchanged. -/
theorem update_password_crashes_before_checks :
    update_password (fun _ => Except.ok "a@x.com") (fun p => "H" ++ p)
        { reset_password_token := "rt", new_password := "np", confirm_password := "np" }
        [{ id := 1, username := "ann", email := "a@x.com", password := "old",
           password_reset_token := some "rt" }] =
      (Except.error (HTTPError.internal
        "coroutine object bound as SQL parameter (missing await)"),
       [{ id := 1, username := "ann", email := "a@x.com", password := "old",
          password_reset_token := some "rt" }]) := rfl

/-- C9.  Atomicity of password-reset completion on failure: if the presented
token does not equal the stored reset token, or the two password fields
differ, the operation returns an error and the user table is exactly the input
table — no partial update happens before the checks.  (In the source the
error raised on such inputs is the line-216 crash on the un-awaited token
decode, which happens before the checks and before any repository write, so
the table is untouched a fortiori.) -/
theorem update_password_atomic_on_failure
    (getEmail : String → Except String String) (hash : String → String)
    (request : ResetPassword) (db : List User) (email : String) (u : User)
    (hget : getEmail request.reset_password_token = Except.ok email)
    (hfind : get_user_by_email email db = some u)
    (hbad : u.password_reset_token ≠ some request.reset_password_token ∨
            request.new_password ≠ request.confirm_password) :
    ∃ detail, update_password getEmail hash request db =
      (Except.error detail, db) :=
  ⟨HTTPError.internal "coroutine object bound as SQL parameter (missing await)",
    rfl⟩

/-- Witness for C9: mismatching password fields leave the table untouched. -/
theorem update_password_atomic_on_failure_witness :
    ∃ detail, update_password (fun _ => Except.ok "a@x.com") (fun p => "H" ++ p)
        { reset_password_token := "rt", new_password := "np", confirm_password := "xx" }
        [{ id := 1, username := "ann", email := "a@x.com", password := "old",
           password_reset_token := some "rt" }] =
      (Except.error detail,
       [{ id := 1, username := "ann", email := "a@x.com", password := "old",
          password_reset_token := some "rt" }]) :=
  update_password_atomic_on_failure (fun _ => Except.ok "a@x.com")
    (fun p => "H" ++ p)
    { reset_password_token := "rt", new_password := "np", confirm_password := "xx" }
    [{ id := 1, username := "ann", email := "a@x.com", password := "old",
       password_reset_token := some "rt" }] "a@x.com"
    { id := 1, username := "ann", email := "a@x.com", password := "old",
      password_reset_token := some "rt" }
    rfl rfl (Or.inr (by decide))

/-- C10.  Frame property of contact update: when the fetch by `(id, user)`
returns a contact, the update rewrites exactly the five payload fields from
the body, keeps `id` and `user_id` (so the contact stays with the requesting
user), and every other row of the table is carried over unchanged. -/
theorem update_contact_frame (contact_id : Nat) (body : ContactModel)
    (db : List Contact) (user : User) (c : Contact)
    (hfound : scalar_one_or_none (contactQuery contact_id user db) =
      Except.ok (some c)) :
    ∃ c' db',
      update_contact contact_id body db user = Except.ok (some c', db') ∧
      c'.id = c.id ∧ c'.user_id = c.user_id ∧ c'.user_id = some user.id ∧
      c'.name = body.name ∧ c'.surname = body.surname ∧ c'.email = body.email ∧
      c'.phone = body.phone ∧ c'.birthday = body.birthday ∧
      (∀ x ∈ db, x ≠ c → x ∈ db') ∧ (∀ x ∈ db', x = c' ∨ x ∈ db) := by
  have hq : contactQuery contact_id user db = [c] :=
    scalar_one_or_none_ok_some hfound
  have hc_mem : c ∈ contactQuery contact_id user db := by rw [hq]; exact List.mem_singleton_self c
  have hc_pred := List.mem_filter.mp hc_mem
  have huid : c.user_id = some user.id := by
    have := hc_pred.2
    simp only [Bool.and_eq_true, beq_iff_eq] at this
    exact this.2
  refine ⟨{ c with
      name := body.name
      surname := body.surname
      email := body.email
      phone := body.phone
      birthday := body.birthday },
    db.map (fun x => if x = c then
      { c with
        name := body.name
        surname := body.surname
        email := body.email
        phone := body.phone
        birthday := body.birthday } else x),
    ?_, rfl, rfl, huid, rfl, rfl, rfl, rfl, rfl, ?_, ?_⟩
  · simp only [update_contact, hfound]
  · intro x hx hne
    exact List.mem_map.mpr ⟨x, hx, by simp [hne]⟩
  · intro x hx
    obtain ⟨y, hy, hfy⟩ := List.mem_map.mp hx
    by_cases h : y = c
    · left; rw [← hfy]; simp [h]
    · right; rw [← hfy]; simpa [h] using hy

/-- Witness for C10 on a two-row table: updating contact 7 keeps its id and
owner and carries row 8 over unchanged. -/
theorem update_contact_frame_witness :
    ∃ c' db',
      update_contact 7
          { name := "New", surname := "Name", email := "new@x.com",
            phone := "9", birthday := ⟨1991, 6, 2⟩ }
          [{ id := 7, name := "Bob", surname := "Smith", email := "bob@x.com",
             phone := "1", birthday := ⟨1990, 5, 1⟩, user_id := some 1 },
           { id := 8, name := "Ann", surname := "Roe", email := "ann@x.com",
             phone := "2", birthday := ⟨1992, 7, 3⟩, user_id := some 2 }]
          { id := 1, username := "ann", email := "a@x.com", password := "h" } =
        Except.ok (some c', db') ∧
      c'.id = 7 ∧ c'.user_id = some 1 := by
  obtain ⟨c', db', h1, h2, h3, h4, _⟩ := update_contact_frame 7
    { name := "New", surname := "Name", email := "new@x.com",
      phone := "9", birthday := ⟨1991, 6, 2⟩ }
    [{ id := 7, name := "Bob", surname := "Smith", email := "bob@x.com",
       phone := "1", birthday := ⟨1990, 5, 1⟩, user_id := some 1 },
     { id := 8, name := "Ann", surname := "Roe", email := "ann@x.com",
       phone := "2", birthday := ⟨1992, 7, 3⟩, user_id := some 2 }]
    { id := 1, username := "ann", email := "a@x.com", password := "h" }
    { id := 7, name := "Bob", surname := "Smith", email := "bob@x.com",
      phone := "1", birthday := ⟨1990, 5, 1⟩, user_id := some 1 }
    (by rfl)
  exact ⟨c', db', h1, h2, h4⟩
